import Mathlib

set_option allowUnsafeReducibility true
attribute [semireducible] Rat.mul Rat.add Rat.sub Rat.inv Rat.div Rat.ofScientific

/-!
Verification of the VAD (voice activity detection) and ducking engine of the
musicgen repository.  The JavaScript sources are shallowly embedded:

* `VoiceProcessor` (VAD fields and the methods `calculateAudioEnergy`,
  `updateEnergyHistory`, `getAverageEnergy`, `processVAD`, `setVADEnabled`)
  becomes the structure `VADState` together with pure step functions.
  JavaScript numbers are modelled as rationals, except in
  `calculateAudioEnergy` where the JavaScript special values NaN and
  Infinity (which `sum / length` can produce) are modelled explicitly by
  the type `JSNum`.  Timestamps (`Date.now()`) are integers; the JavaScript
  truthiness test `!this.speechStartTime` (true for both `null` and `0`)
  and the numeric coercion of `null` to `0` are modelled by `jsFalsyTime`
  and `jsTimeVal`.
* `processVAD(audioData)` first computes `calculateAudioEnergy(audioData)`
  and then operates only on that number; the step function `processVAD`
  below therefore takes the instantaneous energy (a rational; the
  energy is a float in the source) and the current time as arguments.
* `AudioSystem` (the fields driving ducking and the methods
  `onSpeechDetected`, `onSpeechEnded`, `playTrack`, `playDemoTrack`)
  becomes the structure `AudioSystemState`.  `fadeVolume`/`fadeGain`
  schedule a 20-step linear ramp whose last step writes the target
  exactly; `fadeVolume`/`fadeGain` below give the element after that ramp
  has run to completion, and `fadeVolumeStepValue` gives the value written
  at an intermediate step.
-/

/-- A JavaScript number produced by `sum / length` followed by `Math.sqrt`:
either NaN, Infinity, or an ordinary (real) number. -/
inductive JSNum where
  | nan : JSNum
  | inf : JSNum
  | num (x : ℝ) : JSNum

/-- A JavaScript number that is still rational (before the square root):
NaN, Infinity, or a rational value. -/
inductive JSNumQ where
  | nan : JSNumQ
  | inf : JSNumQ
  | num (q : ℚ) : JSNumQ
deriving DecidableEq

/-- JavaScript division `a / b` on non-negative operands: `0 / 0` is NaN,
`a / 0` with `a ≠ 0` is Infinity, otherwise the exact quotient. -/
def jsDiv (a b : ℚ) : JSNumQ :=
  if b = 0 then (if a = 0 then JSNumQ.nan else JSNumQ.inf) else JSNumQ.num (a / b)

/-- `Math.sqrt`: NaN on NaN and on negative input, Infinity on Infinity. -/
noncomputable def jsSqrt : JSNumQ → JSNum
  | JSNumQ.nan => JSNum.nan
  | JSNumQ.inf => JSNum.inf
  | JSNumQ.num q => if q < 0 then JSNum.nan else JSNum.num (Real.sqrt q)

/-- The loop `for (...) sum += audioData[i] * audioData[i]` of
`calculateAudioEnergy`. -/
def sumSquares (audioData : List ℚ) : ℚ :=
  audioData.foldl (fun s x => s + x * x) 0

/-- `calculateAudioEnergy(audioData)`: `Math.sqrt(sum / audioData.length)`.
For the empty frame this is `Math.sqrt(0 / 0)`. -/
noncomputable def calculateAudioEnergy (audioData : List ℚ) : JSNum :=
  jsSqrt (jsDiv (sumSquares audioData) audioData.length)

/-- The two events emitted by `processVAD` / `setVADEnabled`
(`this.emit('speechStart')`, `this.emit('speechEnd')`). -/
inductive VADEvent where
  | speechStart : VADEvent
  | speechEnd : VADEvent
deriving DecidableEq, Repr

/-- The VAD-relevant fields of `VoiceProcessor`. -/
structure VADState where
  vadEnabled : Bool
  vadThreshold : ℚ
  vadSmoothingFactor : ℚ
  vadMinSpeechDuration : ℤ
  vadSilenceTimeout : ℤ
  currentEnergy : ℚ
  speechStartTime : Option ℤ
  lastSpeechTime : Option ℤ
  isSpeechActive : Bool
  energyHistory : List ℚ
  maxHistoryLength : ℕ
deriving DecidableEq, Repr

/-- The field values set by the `VoiceProcessor` constructor. -/
def initialVADState : VADState where
  vadEnabled := true
  vadThreshold := 1/100
  vadSmoothingFactor := 4/5
  vadMinSpeechDuration := 300
  vadSilenceTimeout := 1000
  currentEnergy := 0
  speechStartTime := none
  lastSpeechTime := none
  isSpeechActive := false
  energyHistory := []
  maxHistoryLength := 10

/-- JavaScript truthiness of a nullable timestamp: `!t` is true when `t` is
`null` and also when `t` is the number `0`. -/
def jsFalsyTime : Option ℤ → Bool
  | none => true
  | some t => t == 0

/-- JavaScript numeric coercion of a nullable timestamp: `null` coerces
to `0` in arithmetic. -/
def jsTimeVal : Option ℤ → ℤ
  | none => 0
  | some t => t

/-- `updateEnergyHistory(energy)`: push, then shift once if the length
exceeds `maxHistoryLength`. -/
def updateEnergyHistory (history : List ℚ) (maxHistoryLength : ℕ) (energy : ℚ) : List ℚ :=
  if maxHistoryLength < (history ++ [energy]).length then (history ++ [energy]).drop 1
  else history ++ [energy]

/-- `getAverageEnergy()`: `0` for an empty history, otherwise
`reduce((a, b) => a + b, 0) / length`. -/
def getAverageEnergy (history : List ℚ) : ℚ :=
  if history.length = 0 then 0
  else history.foldl (fun a b => a + b) 0 / history.length

/-- The smoothed energy computed at the start of `processVAD`:
`(smoothingFactor * currentEnergy) + ((1 - smoothingFactor) * instantEnergy)`. -/
def nextEnergy (st : VADState) (instantEnergy : ℚ) : ℚ :=
  st.vadSmoothingFactor * st.currentEnergy + (1 - st.vadSmoothingFactor) * instantEnergy

/-- The energy history after `this.updateEnergyHistory(this.currentEnergy)`. -/
def nextHistory (st : VADState) (instantEnergy : ℚ) : List ℚ :=
  updateEnergyHistory st.energyHistory st.maxHistoryLength (nextEnergy st instantEnergy)

/-- `adaptiveThreshold = Math.max(this.vadThreshold, avgEnergy * 1.5)`. -/
def adaptiveThreshold (st : VADState) (instantEnergy : ℚ) : ℚ :=
  max st.vadThreshold (getAverageEnergy (nextHistory st instantEnergy) * (3/2))

/-- `isSpeechDetected = this.currentEnergy > adaptiveThreshold`. -/
def speechDetected (st : VADState) (instantEnergy : ℚ) : Prop :=
  adaptiveThreshold st instantEnergy < nextEnergy st instantEnergy

instance (st : VADState) (e : ℚ) : Decidable (speechDetected st e) := by
  unfold speechDetected; infer_instance

/-- The result of one `processVAD` call: the updated object state, the
events emitted during the call, and the returned boolean. -/
structure VADResult where
  state : VADState
  events : List VADEvent
  returnValue : Bool
deriving DecidableEq, Repr

/-- The value of `this.speechStartTime` after the
`if (!this.speechStartTime) this.speechStartTime = currentTime` step of
the detected branch. -/
def nextStartTime (st : VADState) (currentTime : ℤ) : Option ℤ :=
  if jsFalsyTime st.speechStartTime then some currentTime else st.speechStartTime

/-- One call `processVAD(audioData)` at time `currentTime`, where
`instantEnergy = calculateAudioEnergy(audioData)`. -/
def processVAD (st : VADState) (instantEnergy : ℚ) (currentTime : ℤ) : VADResult :=
  if !st.vadEnabled then ⟨st, [], false⟩
  else
    let cE := nextEnergy st instantEnergy
    let hist := nextHistory st instantEnergy
    if speechDetected st instantEnergy then
      let sst : Option ℤ := nextStartTime st currentTime
      let speechDuration := currentTime - jsTimeVal sst
      if st.vadMinSpeechDuration ≤ speechDuration ∧ st.isSpeechActive = false then
        ⟨{ st with currentEnergy := cE, energyHistory := hist, speechStartTime := sst,
                   lastSpeechTime := some currentTime, isSpeechActive := true },
         [VADEvent.speechStart], true⟩
      else
        ⟨{ st with currentEnergy := cE, energyHistory := hist, speechStartTime := sst,
                   lastSpeechTime := some currentTime },
         [], st.isSpeechActive⟩
    else
      if st.isSpeechActive = true ∧ jsFalsyTime st.lastSpeechTime = false then
        if st.vadSilenceTimeout ≤ currentTime - jsTimeVal st.lastSpeechTime then
          ⟨{ st with currentEnergy := cE, energyHistory := hist, isSpeechActive := false,
                     speechStartTime := none },
           [VADEvent.speechEnd], false⟩
        else
          ⟨{ st with currentEnergy := cE, energyHistory := hist }, [], st.isSpeechActive⟩
      else
        ⟨{ st with currentEnergy := cE, energyHistory := hist }, [], st.isSpeechActive⟩

/-- `setVADEnabled(enabled)`. -/
def setVADEnabled (st : VADState) (enabled : Bool) : VADState × List VADEvent :=
  let st1 := { st with vadEnabled := enabled }
  if !enabled && st1.isSpeechActive then
    ({ st1 with isSpeechActive := false, speechStartTime := none }, [VADEvent.speechEnd])
  else (st1, [])

/-- A run of per-frame `processVAD` calls on a list of
(instantaneous energy, arrival time) frames; collects the emitted events
with their frame times. -/
def runVAD : VADState → List (ℚ × ℤ) → VADState × List (VADEvent × ℤ)
  | st, [] => (st, [])
  | st, f :: rest =>
    let r := processVAD st f.1 f.2
    let rr := runVAD r.state rest
    (rr.1, r.events.map (fun ev => (ev, f.2)) ++ rr.2)

/-- The event trace of a run, without timestamps. -/
def runEvents (st : VADState) (frames : List (ℚ × ℤ)) : List VADEvent :=
  ((runVAD st frames).2).map Prod.fst

/-- Strict alternation of an event trace against the `isSpeechActive` flag:
from inactive the next event must be `speechStart`, from active it must be
`speechEnd`. -/
def alternates : Bool → List VADEvent → Prop
  | _, [] => True
  | false, VADEvent.speechStart :: rest => alternates true rest
  | true, VADEvent.speechEnd :: rest => alternates false rest
  | _, _ => False

/-- An HTML audio element, reduced to its `volume` property. -/
structure AudioElement where
  volume : ℚ
deriving DecidableEq, Repr

/-- A Web Audio gain node, reduced to its `gain.value` property. -/
structure GainNode where
  gain : ℚ
deriving DecidableEq, Repr

/-- The ducking-relevant fields of `AudioSystem`. -/
structure AudioSystemState where
  volume : ℚ
  isVADMuted : Bool
  originalVolume : Option ℚ
  originalGain : Option ℚ
  vadDuckingFactor : ℚ
  currentAudio : Option AudioElement
  demoAudio : Option GainNode
deriving DecidableEq, Repr

/-- The field values set by the `AudioSystem` constructor. -/
def initialAudioSystemState : AudioSystemState where
  volume := 1/2
  isVADMuted := false
  originalVolume := none
  originalGain := none
  vadDuckingFactor := 1/5
  currentAudio := none
  demoAudio := none

/-- The value `startVolume + (volumeDiff * progress)` written by step
`currentStep` of the 20-step `fadeVolume` interval. -/
def fadeVolumeStepValue (startVolume targetVolume : ℚ) (steps currentStep : ℕ) : ℚ :=
  startVolume + (targetVolume - startVolume) * ((currentStep : ℚ) / steps)

/-- `fadeVolume(audioElement, targetVolume, duration)` after the scheduled
interval has run to completion: the final step writes
`audioElement.volume = targetVolume`.  A `null` element is left alone. -/
def fadeVolume (audioElement : Option AudioElement) (targetVolume : ℚ) : Option AudioElement :=
  match audioElement with
  | none => none
  | some a => some { a with volume := targetVolume }

/-- `fadeGain(gainNode, targetGain, duration)` after the scheduled linear
ramp has completed: the gain reaches `targetGain`. -/
def fadeGain (gainNode : Option GainNode) (targetGain : ℚ) : Option GainNode :=
  match gainNode with
  | none => none
  | some g => some { g with gain := targetGain }

/-- `onSpeechDetected()`: return early when already ducked; otherwise set
`isVADMuted`, snapshot the current gains, and fade each present sink to
`snapshot * vadDuckingFactor` (fades taken to completion). -/
def onSpeechDetected (st : AudioSystemState) : AudioSystemState :=
  if st.isVADMuted then st
  else
    let st1 := { st with isVADMuted := true }
    let st2 :=
      match st1.currentAudio with
      | none => st1
      | some a =>
        { st1 with originalVolume := some a.volume,
                   currentAudio := fadeVolume st1.currentAudio (a.volume * st1.vadDuckingFactor) }
    match st2.demoAudio with
    | none => st2
    | some g =>
      { st2 with originalGain := some g.gain,
                 demoAudio := fadeGain st2.demoAudio (g.gain * st2.vadDuckingFactor) }

/-- `onSpeechEnded()`: return early when not ducked; otherwise clear
`isVADMuted` and fade each present sink back to its snapshot when the
snapshot is not `null` (fades taken to completion). -/
def onSpeechEnded (st : AudioSystemState) : AudioSystemState :=
  if !st.isVADMuted then st
  else
    let st1 := { st with isVADMuted := false }
    let st2 :=
      match st1.currentAudio, st1.originalVolume with
      | some _, some ov => { st1 with currentAudio := fadeVolume st1.currentAudio ov }
      | _, _ => st1
    match st2.demoAudio, st2.originalGain with
    | some _, some og => { st2 with demoAudio := fadeGain st2.demoAudio og }
    | _, _ => st2

/-- A Freesound track, reduced to whether `track.previews` offers a
playable preview URL. -/
structure Track where
  hasPreview : Bool
deriving DecidableEq, Repr

/-- `playTrack(track)`: pause and drop the current audio element; when a
preview URL exists, attach a fresh element with
`this.currentAudio.volume = this.volume`. -/
def playTrack (st : AudioSystemState) (track : Track) : AudioSystemState :=
  let st1 := { st with currentAudio := none }
  if track.hasPreview then { st1 with currentAudio := some ⟨st1.volume⟩ }
  else st1

/-- `playDemoTrack(style)`: attach an oscillator/gain-node pair with
`gainNode.gain.value = this.volume * 0.1`. -/
def playDemoTrack (st : AudioSystemState) : AudioSystemState :=
  { st with demoAudio := some ⟨st.volume * (1/10)⟩ }

/-- A run in which the smoothed energy rises above the adaptive threshold
(frames at times 200 and 250) and falls back below it (time 260) before
300 ms have elapsed. -/
def shortEpisodeFrames : List (ℚ × ℤ) := [(0, 0), (0, 100), (1, 200), (0, 250), (0, 260)]

/-- A VAD state in the active-speech phase, used to instantiate theorems. -/
def activeVADState : VADState :=
  { initialVADState with isSpeechActive := true, speechStartTime := some 200,
                         lastSpeechTime := some 500 }

/-- An `AudioSystem` state that has been ducked once from gain 1/2. -/
def duckedAudioState : AudioSystemState :=
  onSpeechDetected { initialAudioSystemState with currentAudio := some ⟨1/2⟩ }

/-! ## Claims -/

lemma foldl_squares_nonneg (l : List ℚ) (a : ℚ) (ha : 0 ≤ a) :
    0 ≤ l.foldl (fun s x => s + x * x) a := by
  induction l generalizing a with
  | nil => simpa using ha
  | cons x xs ih => exact ih (a + x * x) (add_nonneg ha (mul_self_nonneg x))

lemma sumSquares_nonneg (l : List ℚ) : 0 ≤ sumSquares l :=
  foldl_squares_nonneg l 0 le_rfl

lemma updateEnergyHistory_eq (hist : List ℚ) (x : ℚ) (h : hist.length ≤ 10) :
    updateEnergyHistory hist 10 x =
      if hist.length < 10 then hist ++ [x] else hist.drop 1 ++ [x] := by
  unfold updateEnergyHistory
  have hlen : (hist ++ [x]).length = hist.length + 1 := by simp
  rcases lt_or_eq_of_le h with hlt | heq
  · have hno : ¬ (10 < (hist ++ [x]).length) := by omega
    rw [if_pos hlt, if_neg hno]
  · have hyes : 10 < (hist ++ [x]).length := by omega
    have hno : ¬ hist.length < 10 := by omega
    rw [if_neg hno, if_pos hyes]
    exact List.drop_append_of_le_length (by omega)

lemma updateEnergyHistory_length_le (hist : List ℚ) (maxLen : ℕ) (x : ℚ)
    (h : hist.length ≤ maxLen) :
    (updateEnergyHistory hist maxLen x).length ≤ maxLen := by
  unfold updateEnergyHistory
  have hlen : (hist ++ [x]).length = hist.length + 1 := by simp
  split
  · simp only [List.length_drop]
    omega
  · omega

lemma processVAD_energy_fields (st : VADState) (e : ℚ) (now : ℤ)
    (hen : st.vadEnabled = true) :
    (processVAD st e now).state.currentEnergy = nextEnergy st e ∧
    (processVAD st e now).state.energyHistory = nextHistory st e := by
  simp only [processVAD, hen, Bool.not_true, Bool.false_eq_true, if_false]
  split_ifs <;> exact ⟨rfl, rfl⟩

lemma processVAD_lastSpeechTime (st : VADState) (e : ℚ) (now : ℤ)
    (hen : st.vadEnabled = true) :
    (speechDetected st e → (processVAD st e now).state.lastSpeechTime = some now) ∧
    (¬ speechDetected st e → (processVAD st e now).state.lastSpeechTime = st.lastSpeechTime) := by
  constructor
  · intro hdet
    simp only [processVAD, hen, Bool.not_true, Bool.false_eq_true, if_false, if_pos hdet]
    split_ifs <;> rfl
  · intro hdet
    simp only [processVAD, hen, Bool.not_true, Bool.false_eq_true, if_false, if_neg hdet]
    split_ifs <;> rfl

/-- C3: `calculateAudioEnergy` of a zero-length frame is `Math.sqrt(0/0)`,
which is NaN, not the energy 0 the spec requires; for a non-empty frame it
is the root-mean-square `sqrt(sum of squares / N)`.  The NaN then poisons
`currentEnergy` through the exponential smoothing, so this is a genuine
divide-by-zero slip, not a harmless corner. -/
theorem C3_empty_frame_energy_nan :
    calculateAudioEnergy [] = JSNum.nan ∧
    (∀ (x : ℚ) (l : List ℚ),
      calculateAudioEnergy (x :: l) =
        JSNum.num (Real.sqrt (sumSquares (x :: l) / ((x :: l).length : ℚ)))) := by
  constructor
  · simp [calculateAudioEnergy, jsDiv, jsSqrt, sumSquares]
  · intro x l
    have hlen : ((l.length : ℚ) + 1) ≠ 0 := by positivity
    have hq : 0 ≤ sumSquares (x :: l) / ((l.length : ℚ) + 1) :=
      div_nonneg (sumSquares_nonneg _) (by positivity)
    simp only [calculateAudioEnergy, jsDiv, jsSqrt, List.length_cons, Nat.cast_add, Nat.cast_one,
      if_neg hlen, if_neg (not_lt.mpr hq), JSNum.num.injEq]
    push_cast
    ring_nf

/-- C4: on an enabled frame the smoothed energy follows the exponential
moving average, the history is appended (evicting the oldest entry when
the capacity 10 would be exceeded) and never exceeds length 10, the
rolling average is the mean of the history (0 when empty), and the
detection decision compares the smoothed energy against
`max(baseThreshold, rollingAverage * 1.5)` — visible in behavior through
`lastSpeechTime`.  The constructor defaults are smoothing 0.8, capacity
10, base threshold 0.01. -/
theorem C4_adaptive_threshold_pipeline (st : VADState) (e : ℚ) (now : ℤ)
    (hen : st.vadEnabled = true) (hmax : st.maxHistoryLength = 10)
    (hlen : st.energyHistory.length ≤ 10) :
    (processVAD st e now).state.currentEnergy
        = st.vadSmoothingFactor * st.currentEnergy + (1 - st.vadSmoothingFactor) * e ∧
    (processVAD st e now).state.energyHistory
        = (if st.energyHistory.length < 10 then st.energyHistory ++ [nextEnergy st e]
           else st.energyHistory.drop 1 ++ [nextEnergy st e]) ∧
    (processVAD st e now).state.energyHistory.length ≤ 10 ∧
    getAverageEnergy [] = 0 ∧
    (∀ (x : ℚ) (h : List ℚ), getAverageEnergy (x :: h)
        = (x :: h).foldl (fun a b => a + b) 0 / ((x :: h).length : ℚ)) ∧
    (speechDetected st e ↔
      max st.vadThreshold (getAverageEnergy (nextHistory st e) * (3/2)) < nextEnergy st e) ∧
    (speechDetected st e → (processVAD st e now).state.lastSpeechTime = some now) ∧
    (¬ speechDetected st e → (processVAD st e now).state.lastSpeechTime = st.lastSpeechTime) ∧
    initialVADState.vadSmoothingFactor = 4/5 ∧ initialVADState.maxHistoryLength = 10 ∧
    initialVADState.vadThreshold = 1/100 := by
  obtain ⟨hce, hhist⟩ := processVAD_energy_fields st e now hen
  obtain ⟨hd1, hd2⟩ := processVAD_lastSpeechTime st e now hen
  refine ⟨hce, ?_, ?_, rfl, ?_, Iff.rfl, hd1, hd2, rfl, rfl, rfl⟩
  · rw [hhist]
    unfold nextHistory
    rw [hmax]
    exact updateEnergyHistory_eq st.energyHistory (nextEnergy st e) hlen
  · rw [hhist]
    unfold nextHistory
    rw [hmax]
    exact updateEnergyHistory_length_le st.energyHistory 10 (nextEnergy st e) hlen
  · intro x h
    simp [getAverageEnergy]

/-- Witness for C4 at the initial state with a unit-energy frame. -/
theorem C4_adaptive_threshold_pipeline_witness :
    (processVAD initialVADState 1 0).state.currentEnergy
        = initialVADState.vadSmoothingFactor * initialVADState.currentEnergy
            + (1 - initialVADState.vadSmoothingFactor) * 1 ∧
    (processVAD initialVADState 1 0).state.energyHistory.length ≤ 10 :=
  ⟨(C4_adaptive_threshold_pipeline initialVADState 1 0 rfl rfl (by decide)).1,
   (C4_adaptive_threshold_pipeline initialVADState 1 0 rfl rfl (by decide)).2.2.1⟩

/-- C10: when `vadEnabled` is false, `processVAD` returns `false`, changes
no detector state, and emits no event. -/
theorem C10_disabled_frame_noop (st : VADState) (e : ℚ) (now : ℤ)
    (h : st.vadEnabled = false) :
    processVAD st e now = ⟨st, [], false⟩ := by
  simp [processVAD, h]

/-- Witness for C10 at a concrete disabled state and frame. -/
theorem C10_disabled_frame_noop_witness :
    processVAD { initialVADState with vadEnabled := false } 1 5 =
      ⟨{ initialVADState with vadEnabled := false }, [], false⟩ :=
  C10_disabled_frame_noop { initialVADState with vadEnabled := false } 1 5 rfl

/-- C8 counterexample: after the run `shortEpisodeFrames` (which leaves
`speechStartTime = 200` and `lastSpeechTime = 250`), disabling and then
re-enabling VAD leaves both timers exactly as they were: re-enabling does
not reset them to `null`, contrary to the claim. -/
theorem C8_reenable_keeps_timers :
    (setVADEnabled (setVADEnabled (runVAD initialVADState shortEpisodeFrames).1 false).1
        true).1.speechStartTime = some 200 ∧
    (setVADEnabled (setVADEnabled (runVAD initialVADState shortEpisodeFrames).1 false).1
        true).1.lastSpeechTime = some 250 ∧
    (setVADEnabled (setVADEnabled (runVAD initialVADState shortEpisodeFrames).1 false).1
        true).1.vadEnabled = true := by
  decide

/-- C8 amended: `setVADEnabled(true)` only sets the `vadEnabled` flag and
emits no event; it leaves `speechStartTime` and `lastSpeechTime` (and all
other detector state) untouched, so timing recorded before a disable
persists across a re-enable. -/
theorem C8_enable_sets_flag_only (st : VADState) :
    setVADEnabled st true = ({ st with vadEnabled := true }, []) := by
  simp [setVADEnabled]

/-- C1 counterexample: on `shortEpisodeFrames` the energy rises above the
adaptive threshold at times 200–250 and falls below it at 260, well before
`minSpeechDuration = 300` has elapsed.  No event fires and
`isSpeechActive` stays false, but `speechStartTime` is still `some 200`
(not reset to `null`), and the next above-threshold frame at time 600
emits `speechStarted` immediately — timed from the aborted episode's
start, not from its own arrival. -/
theorem C1_short_episode_keeps_start_time :
    (runVAD initialVADState shortEpisodeFrames).2 = [] ∧
    (runVAD initialVADState shortEpisodeFrames).1.isSpeechActive = false ∧
    (runVAD initialVADState shortEpisodeFrames).1.speechStartTime = some 200 ∧
    (runVAD initialVADState shortEpisodeFrames).1.lastSpeechTime = some 250 ∧
    (runVAD initialVADState (shortEpisodeFrames ++ [(1, 600)])).2 =
      [(VADEvent.speechStart, 600)] := by
  decide

lemma processVAD_speechEnd_mem (st : VADState) (e : ℚ) (now : ℤ) :
    VADEvent.speechEnd ∈ (processVAD st e now).events ↔
      (st.vadEnabled = true ∧ st.isSpeechActive = true ∧ ¬ speechDetected st e ∧
       jsFalsyTime st.lastSpeechTime = false ∧
       st.vadSilenceTimeout ≤ now - jsTimeVal st.lastSpeechTime) := by
  by_cases hen : st.vadEnabled = true
  · simp only [processVAD, hen, Bool.not_true, Bool.false_eq_true, if_false]
    split_ifs with hdet htrig hact hto <;> simp_all
  · have hen0 : st.vadEnabled = false := by
      revert hen; cases st.vadEnabled <;> simp
    simp [processVAD, hen0]

lemma processVAD_step_cases (st : VADState) (e : ℚ) (now : ℤ) :
    ((processVAD st e now).events = [] ∧
      (processVAD st e now).state.isSpeechActive = st.isSpeechActive) ∨
    ((processVAD st e now).events = [VADEvent.speechStart] ∧ st.isSpeechActive = false ∧
      (processVAD st e now).state.isSpeechActive = true) ∨
    ((processVAD st e now).events = [VADEvent.speechEnd] ∧ st.isSpeechActive = true ∧
      (processVAD st e now).state.isSpeechActive = false) := by
  by_cases hen : st.vadEnabled = true
  · simp only [processVAD, hen, Bool.not_true, Bool.false_eq_true, if_false]
    split_ifs with hdet htrig hact hto
    · exact Or.inr (Or.inl ⟨rfl, htrig.2, rfl⟩)
    · exact Or.inl ⟨rfl, rfl⟩
    · exact Or.inr (Or.inr ⟨rfl, hact.1, rfl⟩)
    · exact Or.inl ⟨rfl, rfl⟩
    · exact Or.inl ⟨rfl, rfl⟩
  · have hen0 : st.vadEnabled = false := by
      revert hen; cases st.vadEnabled <;> simp
    simp [processVAD, hen0]

lemma runEvents_nil (st : VADState) : runEvents st [] = [] := rfl

lemma runEvents_cons (st : VADState) (f : ℚ × ℤ) (rest : List (ℚ × ℤ)) :
    runEvents st (f :: rest) =
      (processVAD st f.1 f.2).events ++ runEvents (processVAD st f.1 f.2).state rest := by
  have hid : (Prod.fst ∘ fun ev : VADEvent => (ev, f.2)) = id := rfl
  simp [runEvents, runVAD, hid]

lemma alternates_nil (b : Bool) : alternates b [] := by
  cases b <;> exact trivial

lemma alternates_start_cons (t : List VADEvent) :
    alternates false (VADEvent.speechStart :: t) ↔ alternates true t := Iff.rfl

lemma alternates_end_cons (t : List VADEvent) :
    alternates true (VADEvent.speechEnd :: t) ↔ alternates false t := Iff.rfl

lemma runVAD_alternates (frames : List (ℚ × ℤ)) :
    ∀ st : VADState, alternates st.isSpeechActive (runEvents st frames) := by
  induction frames with
  | nil =>
    intro st
    rw [runEvents_nil]
    exact alternates_nil _
  | cons f rest ih =>
    intro st
    rw [runEvents_cons]
    rcases processVAD_step_cases st f.1 f.2 with ⟨he, ha⟩ | ⟨he, ha0, ha1⟩ | ⟨he, ha0, ha1⟩
    · rw [he, List.nil_append, ← ha]
      exact ih _
    · rw [he, ha0, List.singleton_append, alternates_start_cons, ← ha1]
      exact ih _
    · rw [he, ha0, List.singleton_append, alternates_end_cons, ← ha1]
      exact ih _

/-- C2: per frame, `speechEnd` is emitted exactly when the detector is
enabled and active, the frame is below threshold, and at least
`silenceTimeout` has passed since `lastSpeechTime` — so never before that
much silence has elapsed, and at the first frame at which it has; and
over any run the event trace strictly alternates `speechStart` /
`speechEnd` relative to the entry `isSpeechActive` flag, so `speechEnd`
fires exactly once per episode, never duplicated. -/
theorem C2_speech_end_exactly_once :
    (∀ (st : VADState) (e : ℚ) (now : ℤ),
      VADEvent.speechEnd ∈ (processVAD st e now).events ↔
        (st.vadEnabled = true ∧ st.isSpeechActive = true ∧ ¬ speechDetected st e ∧
         jsFalsyTime st.lastSpeechTime = false ∧
         st.vadSilenceTimeout ≤ now - jsTimeVal st.lastSpeechTime)) ∧
    (∀ (st : VADState) (frames : List (ℚ × ℤ)),
      alternates st.isSpeechActive (runEvents st frames)) :=
  ⟨processVAD_speechEnd_mem, fun st frames => runVAD_alternates frames st⟩

/-- Witness for C2: in an active state that last heard speech at time 500,
a silent frame at time 2000 (1500 ms ≥ 1000 ms of silence) emits
`speechEnd`. -/
theorem C2_speech_end_exactly_once_witness :
    VADEvent.speechEnd ∈ (processVAD activeVADState 0 2000).events :=
  (C2_speech_end_exactly_once.1 activeVADState 0 2000).mpr
    ⟨rfl, rfl, by decide, by decide, by decide⟩

lemma onSpeechDetected_muted (a : AudioSystemState) :
    (onSpeechDetected a).isVADMuted = true := by
  by_cases h : a.isVADMuted
  · simp [onSpeechDetected, h]
  · rcases hc : a.currentAudio with _ | el <;> rcases hd : a.demoAudio with _ | g <;>
      simp [onSpeechDetected, h, hc, hd]

lemma onSpeechDetected_of_muted (a : AudioSystemState) (h : a.isVADMuted = true) :
    onSpeechDetected a = a := by
  simp [onSpeechDetected, h]

/-- C5: `onSpeechDetected` while already ducked is a no-op (no gain or
snapshot change); `onSpeechEnded` while not ducked is a no-op; and after
the first duck the stored snapshot equals the sink gain immediately
before that duck, a second `onSpeechDetected` changing nothing. -/
theorem C5_ducking_idempotent :
    (∀ a : AudioSystemState, a.isVADMuted = true → onSpeechDetected a = a) ∧
    (∀ a : AudioSystemState, a.isVADMuted = false → onSpeechEnded a = a) ∧
    (∀ (a : AudioSystemState) (el : AudioElement),
      a.isVADMuted = false → a.currentAudio = some el →
      (onSpeechDetected a).originalVolume = some el.volume ∧
      onSpeechDetected (onSpeechDetected a) = onSpeechDetected a) := by
  refine ⟨?_, ?_, ?_⟩
  · exact onSpeechDetected_of_muted
  · intro a h
    simp [onSpeechEnded, h]
  · intro a el h hc
    refine ⟨?_, onSpeechDetected_of_muted _ (onSpeechDetected_muted a)⟩
    rcases hd : a.demoAudio with _ | g <;> simp [onSpeechDetected, h, hc, hd]

/-- Witness for C5 at concrete ducked and idle states. -/
theorem C5_ducking_idempotent_witness :
    onSpeechDetected duckedAudioState = duckedAudioState ∧
    onSpeechEnded initialAudioSystemState = initialAudioSystemState ∧
    (onSpeechDetected { initialAudioSystemState with currentAudio := some ⟨1/2⟩ }).originalVolume
      = some (1/2 : ℚ) :=
  ⟨C5_ducking_idempotent.1 duckedAudioState (by decide),
   C5_ducking_idempotent.2.1 initialAudioSystemState rfl,
   (C5_ducking_idempotent.2.2 { initialAudioSystemState with currentAudio := some ⟨1/2⟩ }
      ⟨1/2⟩ rfl rfl).1⟩

/-- C6: duck-then-restore round-trip.  From an unducked state, applying
`onSpeechDetected` (fade run to completion: the streamed sink reaches
`g * duckingFactor`) followed by `onSpeechEnded` (fade run to completion)
returns the streamed sink to exactly its starting gain `g`, and the tone
sink to exactly its starting gain; the interval's final step lands
exactly on the target (`fadeVolumeStepValue` at step 20 of 20). -/
theorem C6_duck_restore_roundtrip :
    (∀ (a : AudioSystemState) (el : AudioElement),
      a.isVADMuted = false → a.currentAudio = some el →
      (onSpeechDetected a).currentAudio = some ⟨el.volume * a.vadDuckingFactor⟩ ∧
      (onSpeechEnded (onSpeechDetected a)).currentAudio = some el ∧
      (onSpeechEnded (onSpeechDetected a)).isVADMuted = false) ∧
    (∀ (a : AudioSystemState) (g : GainNode),
      a.isVADMuted = false → a.demoAudio = some g →
      (onSpeechEnded (onSpeechDetected a)).demoAudio = some g) ∧
    (∀ s t : ℚ, fadeVolumeStepValue s t 20 20 = t) := by
  refine ⟨?_, ?_, ?_⟩
  · intro a el h hc
    obtain ⟨v⟩ := el
    rcases hd : a.demoAudio with _ | ⟨g⟩ <;>
      simp [onSpeechDetected, onSpeechEnded, h, hc, hd, fadeVolume, fadeGain]
  · intro a g h hd
    obtain ⟨gv⟩ := g
    rcases hc : a.currentAudio with _ | ⟨v⟩ <;>
      simp [onSpeechDetected, onSpeechEnded, h, hc, hd, fadeVolume, fadeGain]
  · intro s t
    have h20 : ((20 : ℚ) / 20) = 1 := by norm_num
    simp only [fadeVolumeStepValue, Nat.cast_ofNat, h20, mul_one]
    ring

/-- Witness for C6: a sink at gain 0.8 with `duckingFactor = 0.2` is
ducked to 0.16 and restored to exactly 0.8. -/
theorem C6_duck_restore_roundtrip_witness :
    (onSpeechDetected { initialAudioSystemState with currentAudio := some ⟨4/5⟩ }).currentAudio
      = some ⟨4/5 * (1/5)⟩ ∧
    (onSpeechEnded (onSpeechDetected
        { initialAudioSystemState with currentAudio := some ⟨4/5⟩ })).currentAudio
      = some ⟨4/5⟩ :=
  ⟨(C6_duck_restore_roundtrip.1 { initialAudioSystemState with currentAudio := some ⟨4/5⟩ }
      ⟨4/5⟩ rfl rfl).1,
   (C6_duck_restore_roundtrip.1 { initialAudioSystemState with currentAudio := some ⟨4/5⟩ }
      ⟨4/5⟩ rfl rfl).2.1⟩

/-- C7: `setVADEnabled(false)` while speech is active immediately emits
`speechEnd`, forces `isSpeechActive = false` and `speechStartTime = null`
with no reference to `silenceTimeout` or any clock; and `onSpeechEnded`
on a ducked system (here with a streamed sink attached) clears the duck
flag and restores the sink to its snapshot gain at once. -/
theorem C7_disable_forces_speech_end (st : VADState) (a : AudioSystemState)
    (el : AudioElement) (ov : ℚ)
    (hact : st.isSpeechActive = true) (hm : a.isVADMuted = true)
    (hca : a.currentAudio = some el) (hov : a.originalVolume = some ov) :
    (setVADEnabled st false).2 = [VADEvent.speechEnd] ∧
    (setVADEnabled st false).1.isSpeechActive = false ∧
    (setVADEnabled st false).1.speechStartTime = none ∧
    (setVADEnabled st false).1.vadEnabled = false ∧
    (onSpeechEnded a).isVADMuted = false ∧
    (onSpeechEnded a).currentAudio = some { el with volume := ov } := by
  refine ⟨?_, ?_, ?_, ?_, ?_, ?_⟩ <;>
    [skip; skip; skip; skip;
     (rcases hd : a.demoAudio with _ | g <;> rcases hg : a.originalGain with _ | og <;>
        simp [onSpeechEnded, hm, hca, hov, hd, hg, fadeVolume, fadeGain]);
     (rcases hd : a.demoAudio with _ | g <;> rcases hg : a.originalGain with _ | og <;>
        simp [onSpeechEnded, hm, hca, hov, hd, hg, fadeVolume, fadeGain])] <;>
    simp [setVADEnabled, hact]

/-- Witness for C7: disabling in `activeVADState` with the ducked audio
state `duckedAudioState` (snapshot 1/2). -/
theorem C7_disable_forces_speech_end_witness :
    (setVADEnabled activeVADState false).2 = [VADEvent.speechEnd] ∧
    (onSpeechEnded duckedAudioState).currentAudio = some ⟨1/2⟩ :=
  ⟨(C7_disable_forces_speech_end activeVADState duckedAudioState ⟨1/10⟩ (1/2)
      rfl (by decide) (by decide) (by decide)).1,
   (C7_disable_forces_speech_end activeVADState duckedAudioState ⟨1/10⟩ (1/2)
      rfl (by decide) (by decide) (by decide)).2.2.2.2.2⟩

/-- C9 counterexample: with the system ducked (master volume 1/2, sink
ducked to 1/10, snapshot 1/2), `playTrack` attaches the new sink at the
master volume 1/2 — not at the ducked gain 1/10 the claim requires — and
`playDemoTrack` likewise attaches its tone sink at `volume * 0.1 = 1/20`,
not at a ducked gain.  The duck flag does persist and the old sink is
dropped without being restored. -/
theorem C9_new_sink_not_ducked :
    duckedAudioState.isVADMuted = true ∧
    duckedAudioState.currentAudio = some ⟨1/10⟩ ∧
    (playTrack duckedAudioState ⟨true⟩).currentAudio = some ⟨1/2⟩ ∧
    (playTrack duckedAudioState ⟨true⟩).currentAudio ≠
      some ⟨duckedAudioState.volume * duckedAudioState.vadDuckingFactor⟩ ∧
    (playTrack duckedAudioState ⟨true⟩).isVADMuted = true ∧
    (playTrack duckedAudioState ⟨true⟩).originalVolume = some (1/2 : ℚ) ∧
    (playDemoTrack duckedAudioState).demoAudio = some ⟨1/20⟩ := by
  decide

/-- C9 amended: when the sink changes mid-duck, the system-level duck
state is inherited (`isVADMuted` and the snapshot are unchanged) and the
replaced sink is discarded without being restored, but the new sink is
attached at the master volume `this.volume` (tone sink: `volume * 0.1`),
not at the ducked gain; it plays at full volume until the next
`speechEnd` fades it to the stale snapshot. -/
theorem C9_new_sink_inherits_flag_only (a : AudioSystemState) (track : Track)
    (hm : a.isVADMuted = true) (hp : track.hasPreview = true) :
    (playTrack a track).isVADMuted = true ∧
    (playTrack a track).originalVolume = a.originalVolume ∧
    (playTrack a track).currentAudio = some ⟨a.volume⟩ ∧
    (playDemoTrack a).isVADMuted = true ∧
    (playDemoTrack a).demoAudio = some ⟨a.volume * (1/10)⟩ := by
  refine ⟨?_, ?_, ?_, ?_, rfl⟩ <;> simp [playTrack, playDemoTrack, hp, hm]

/-- Witness for the amended C9 at the concrete ducked state. -/
theorem C9_new_sink_inherits_flag_only_witness :
    (playTrack duckedAudioState ⟨true⟩).isVADMuted = true ∧
    (playTrack duckedAudioState ⟨true⟩).currentAudio = some ⟨duckedAudioState.volume⟩ :=
  ⟨(C9_new_sink_inherits_flag_only duckedAudioState ⟨true⟩ (by decide) rfl).1,
   (C9_new_sink_inherits_flag_only duckedAudioState ⟨true⟩ (by decide) rfl).2.2.1⟩

/-- C1 amended: an aborted short episode fires zero events and leaves
`isSpeechActive` false, but `speechStartTime` is left unchanged rather
than reset to `null`; consequently a later above-threshold frame with the
stale non-null `speechStartTime` keeps timing from the earlier aborted
episode's start instead of its own arrival time. -/
theorem C1_short_episode_amended :
    (∀ (st : VADState) (e : ℚ) (now : ℤ),
      st.vadEnabled = true → st.isSpeechActive = false → ¬ speechDetected st e →
      (processVAD st e now).events = [] ∧
      (processVAD st e now).state.isSpeechActive = false ∧
      (processVAD st e now).state.speechStartTime = st.speechStartTime) ∧
    (∀ (st : VADState) (e : ℚ) (now : ℤ),
      st.vadEnabled = true → speechDetected st e → jsFalsyTime st.speechStartTime = false →
      (processVAD st e now).state.speechStartTime = st.speechStartTime) := by
  constructor
  · intro st e now hen hact hdet
    simp [processVAD, hen, hact, hdet]
  · intro st e now hen hdet hsst
    simp only [processVAD, hen, Bool.not_true, Bool.false_eq_true, if_false, if_pos hdet]
    split <;> simp [nextStartTime, hsst]

/-- Witness for the amended C1 at concrete inputs: the initial state with a
silent frame, and the post-`shortEpisodeFrames` state with a loud frame. -/
theorem C1_short_episode_amended_witness :
    ((processVAD initialVADState 0 0).events = [] ∧
      (processVAD initialVADState 0 0).state.isSpeechActive = false ∧
      (processVAD initialVADState 0 0).state.speechStartTime = initialVADState.speechStartTime) ∧
    (processVAD (runVAD initialVADState shortEpisodeFrames).1 1 600).state.speechStartTime =
      (runVAD initialVADState shortEpisodeFrames).1.speechStartTime :=
  ⟨C1_short_episode_amended.1 initialVADState 0 0 rfl rfl (by decide),
   C1_short_episode_amended.2 (runVAD initialVADState shortEpisodeFrames).1 1 600 (by decide)
     (by decide) (by decide)⟩
